import Mathlib

/-!
Verification development for the biz-tracker-mobile sale/purchase
computation core: the client-side line-item, tax, discount and shipping
arithmetic of the `NewSale` screen (`app/sales/new` component) and the
`EditPurchase` screen (`app/(tabs)/purchases/[id]/edit` component), over
the data shapes of `src/services/api.ts`.

Modelling conventions:
* A JavaScript number is abstracted as an exact rational; `JSNum` is
  `Option ℚ`, with `none` standing for `NaN` (finite binary-float
  rounding is abstracted away, matching the spec's "full precision, no
  rounding until display" reading of the arithmetic).
* On the sale form every numeric field is written either with a numeric
  literal or through `parseFloat(v) || 0` / a `NaN`-guarded `parseInt`,
  so `NaN` can never be stored there and those fields are plain `ℚ`
  (wrapped in `Option` only for TypeScript `Partial` absence).  The
  purchase item-entry pipeline parses text without a `NaN` guard, so its
  values are `JSNum`.
* React state setters are modelled as functions from the component state
  record to a new state record; a `useEffect` recomputation is a function
  applied to the state it reads.
-/

/-- JavaScript number with `NaN`: `none` is `NaN`, `some q` a (finite)
number, abstracted as an exact rational. -/
abbrev JSNum := Option ℚ

/-- JavaScript `+` on numbers: `NaN` absorbs. -/
def jsAdd : JSNum → JSNum → JSNum
  | some a, some b => some (a + b)
  | _, _ => none

/-- JavaScript `*` on numbers: `NaN` absorbs.  (Infinities and the
`0 * ∞` corner cannot arise from the finite inputs modelled here.) -/
def jsMul : JSNum → JSNum → JSNum
  | some a, some b => some (a * b)
  | _, _ => none

/-- Parse a maximal run of decimal digits: value, number of digits
consumed, rest of the input. -/
def parseDigitsAux : List Char → Nat → Nat → Nat × Nat × List Char
  | [], acc, n => (acc, n, [])
  | c :: cs, acc, n =>
    if c.isDigit then parseDigitsAux cs (acc * 10 + (c.toNat - 48)) (n + 1)
    else (acc, n, c :: cs)

/-- Parse an optional leading sign: (is-negative, rest). -/
def parseSign : List Char → Bool × List Char
  | '-' :: cs => (true, cs)
  | '+' :: cs => (false, cs)
  | cs => (false, cs)

/-- Model of JavaScript `parseFloat`: skip leading whitespace, then read an
optional sign, decimal digits, an optional fractional part and an optional
exponent, ignoring any trailing garbage; `none` (`NaN`) when no digit is
found.  (`Infinity` literals, never produced by this app's inputs, are not
modelled.) -/
def jsParseFloat (s : String) : Option ℚ :=
  let cs := s.data.dropWhile Char.isWhitespace
  let sgn := parseSign cs
  let intPart := parseDigitsAux sgn.2 0 0
  let fracPart : Nat × Nat × List Char :=
    match intPart.2.2 with
    | '.' :: cs2 => parseDigitsAux cs2 0 0
    | _ => (0, 0, intPart.2.2)
  if intPart.2.1 = 0 ∧ fracPart.2.1 = 0 then none
  else
    let mantissa : ℚ := (intPart.1 : ℚ) + (fracPart.1 : ℚ) / (10 : ℚ) ^ fracPart.2.1
    let expo : Int :=
      match fracPart.2.2 with
      | c :: cs3 =>
        if c = 'e' ∨ c = 'E' then
          let esgn := parseSign cs3
          let edig := parseDigitsAux esgn.2 0 0
          if edig.2.1 = 0 then 0
          else if esgn.1 then -(edig.1 : Int) else (edig.1 : Int)
        else 0
      | [] => 0
    let scaled : ℚ :=
      if 0 ≤ expo then mantissa * (10 : ℚ) ^ expo.toNat
      else mantissa / (10 : ℚ) ^ (-expo).toNat
    some (if sgn.1 then -scaled else scaled)

/-- Model of JavaScript `parseInt` with no radix argument on this app's
decimal inputs: skip whitespace, optional sign, maximal run of decimal
digits; `none` (`NaN`) when no digit is found. -/
def jsParseInt (s : String) : Option Int :=
  let cs := s.data.dropWhile Char.isWhitespace
  let sgn := parseSign cs
  let d := parseDigitsAux sgn.2 0 0
  if d.2.1 = 0 then none
  else some (if sgn.1 then -(d.1 : Int) else (d.1 : Int))

/-- `parseInt` result as a JavaScript number (`NaN` on failure). -/
def jsParseIntNum (s : String) : JSNum := (jsParseInt s).map fun n => (n : ℚ)

/-- `trackingType` discriminator of an `Item` (`api.ts`). -/
inductive TrackingType
  | quantity
  | weight
deriving DecidableEq, Repr

/-- Weight units of `api.ts` (`'oz' | 'lb' | 'g' | 'kg'`). -/
inductive WeightUnit
  | oz
  | lb
  | g
  | kg
deriving DecidableEq, Repr

/-- Catalog `Item` of `api.ts` (fields irrelevant to the computation core —
image URL, tags, timestamps, price type — are omitted). -/
structure Item where
  _id : Option String
  name : String
  sku : String
  category : String
  quantity : ℚ
  price : ℚ
  cost : Option ℚ
  trackingType : Option TrackingType
  weight : Option ℚ
  weightUnit : Option WeightUnit
deriving DecidableEq, Repr

/-- `SaleItem` of `api.ts`: the item reference is kept as the identifier
string (the populated-object variant of the TypeScript union is a
render-time concern). -/
structure SaleItem where
  item : String
  quantity : ℚ
  priceAtSale : ℚ
deriving DecidableEq, Repr

/-- Payment methods of `api.ts` (union of the sale and purchase enums). -/
inductive PaymentMethod
  | cash
  | credit
  | debit
  | check
  | bank_transfer
  | other
deriving DecidableEq, Repr

/-- Sale `status` enum of `api.ts`. -/
inductive SaleStatus
  | completed
  | refunded
  | partially_refunded
deriving DecidableEq, Repr

/-- Purchase `status` enum of `api.ts`. -/
inductive PurchaseStatus
  | pending
  | received
  | partially_received
  | cancelled
deriving DecidableEq, Repr

/-- The `NewSale` screen's `formData : Partial<Sale>`: every field may be
absent (TypeScript `undefined`), hence the `Option`s. -/
structure SaleForm where
  customerName : Option String
  customerEmail : Option String
  customerPhone : Option String
  items : Option (List SaleItem)
  subtotal : Option ℚ
  taxRate : Option ℚ
  taxAmount : Option ℚ
  discountAmount : Option ℚ
  total : Option ℚ
  paymentMethod : Option PaymentMethod
  notes : Option String
  status : Option SaleStatus
deriving DecidableEq, Repr

/-- `PurchaseItem` of `api.ts`.  `quantity` and `weight` are optional
fields whose value, when present, is a JavaScript number that the
`EditPurchase` entry pipeline can set to `NaN`: the outer `Option` is
field presence, the inner one `NaN`-ness. -/
structure PurchaseItem where
  item : String
  quantity : Option JSNum
  weight : Option JSNum
  weightUnit : Option WeightUnit
  costPerUnit : JSNum
  totalCost : JSNum
deriving DecidableEq, Repr

/-- Supplier sub-object of `Purchase` (`api.ts`), all fields optional. -/
structure Supplier where
  name : Option String
  contactName : Option String
  email : Option String
  phone : Option String
deriving DecidableEq, Repr

/-- The `EditPurchase` screen's `formData : Partial<Purchase>`.  The three
aggregate fields are initialised to `0` and thereafter always written by
the recomputation, so they are kept as (possibly-`NaN`) numbers;
`taxRate` and `shippingCost` are read only through `|| 0`, which coerces
both `undefined` and `NaN` to `0`, and are written only by
`parseFloat(v) || 0`, so plain `Option ℚ` is faithful for them. -/
structure PurchaseForm where
  supplier : Option Supplier
  items : Option (List PurchaseItem)
  subtotal : JSNum
  taxRate : Option ℚ
  taxAmount : JSNum
  shippingCost : Option ℚ
  total : JSNum
  paymentMethod : Option PaymentMethod
  status : Option PurchaseStatus
  notes : Option String
deriving DecidableEq, Repr

namespace NewSale

/-- Which texts the sale screen's `setError` holds in `handleAddItem`:
stands for `'Please select an item'`, `'Quantity must be a positive
number'` and `` `Only ${n} items available in stock` ``. -/
inductive AddError
  | selectItem
  | positiveQuantity
  | insufficientStock (available : ℚ)
deriving DecidableEq, Repr

/-- Local component state of `NewSale` that the modelled handlers read and
write (`formData`, `selectedItem`, `selectedQuantity`, `error`). -/
structure State where
  formData : SaleForm
  selectedItem : Option Item
  selectedQuantity : String
  error : Option AddError
deriving DecidableEq, Repr

/-- The `const subtotal = formData.items.reduce((sum, item) => sum +
(item.quantity * item.priceAtSale), 0)` line of the totals effect. -/
def subtotalOf (its : List SaleItem) : ℚ :=
  its.foldl (fun sum it => sum + it.quantity * it.priceAtSale) 0

/-- The totals-recalculation `useEffect` of `NewSale`: on an absent or
empty item list it zeroes `subtotal`, `taxAmount` and `total`; otherwise
`subtotal = Σ quantity × priceAtSale`,
`taxAmount = subtotal * ((taxRate || 0) / 100)`,
`total = subtotal + taxAmount - (discountAmount || 0)` stored as
`total < 0 ? 0 : total`. -/
def recalcTotals (f : SaleForm) : SaleForm :=
  if (f.items.getD []).isEmpty then
    { f with subtotal := some 0, taxAmount := some 0, total := some 0 }
  else
    let subtotal := subtotalOf (f.items.getD [])
    let taxAmount := subtotal * ((f.taxRate.getD 0) / 100)
    let total := subtotal + taxAmount - (f.discountAmount.getD 0)
    { f with
      subtotal := some subtotal
      taxAmount := some taxAmount
      total := some (if total < 0 then 0 else total) }

/-- The text fields `handleTextChange` dispatches on in `NewSale`. -/
inductive Field
  | customerName
  | customerEmail
  | customerPhone
  | taxRate
  | discountAmount
  | notes
deriving DecidableEq, Repr

/-- `handleTextChange` of `NewSale`: `taxRate` and `discountAmount` are
stored as `parseFloat(value) || 0`; every other field stores the raw
string. -/
def handleTextChange (f : SaleForm) (field : Field) (value : String) : SaleForm :=
  match field with
  | .taxRate => { f with taxRate := some ((jsParseFloat value).getD 0) }
  | .discountAmount => { f with discountAmount := some ((jsParseFloat value).getD 0) }
  | .customerName => { f with customerName := some value }
  | .customerEmail => { f with customerEmail := some value }
  | .customerPhone => { f with customerPhone := some value }
  | .notes => { f with notes := some value }

/-- `handleAddItem` of `NewSale`: reject with an error when no item is
selected, when `parseInt(selectedQuantity)` is `NaN` or `≤ 0`, or when it
exceeds the selected item's on-hand `quantity`; otherwise append
`{ item: selectedItem._id || '', quantity, priceAtSale: selectedItem.price }`
to `formData.items` and reset the selection. -/
def handleAddItem (s : State) : State :=
  match s.selectedItem with
  | none => { s with error := some .selectItem }
  | some sel =>
    match jsParseInt s.selectedQuantity with
    | none => { s with error := some .positiveQuantity }
    | some q =>
      if q ≤ 0 then { s with error := some .positiveQuantity }
      else if (q : ℚ) > sel.quantity then
        { s with error := some (.insufficientStock sel.quantity) }
      else
        { s with
          formData := { s.formData with
            items := some ((s.formData.items.getD []) ++
              [{ item := sel._id.getD "", quantity := (q : ℚ), priceAtSale := sel.price }]) }
          selectedItem := none
          selectedQuantity := "1"
          error := none }

/-- `validateForm` of `NewSale`: the returned user-facing message, `none`
meaning the form is valid. -/
def validateForm (f : SaleForm) : Option String :=
  if (f.items.getD []).isEmpty then some "At least one item is required"
  else if f.total.getD 0 ≤ 0 then some "Sale total must be greater than zero"
  else none

/-- `handleSubmit` of `NewSale`, reduced to its data flow: when
`validateForm` reports an error the sale is not submitted (`none`);
otherwise the submitted document is `formData` (`salesApi.create`). -/
def handleSubmit (f : SaleForm) : Option SaleForm :=
  match validateForm f with
  | some _ => none
  | none => some f

end NewSale

namespace EditPurchase

/-- Local component state of `EditPurchase` that the modelled handlers
read and write.  The source keeps `totalCost` as a string state holding
`(…).toString()` of a number and reads it back with `parseFloat`; since
JavaScript's number → decimal-string → number round trip is exact (with
`NaN` printing as `'NaN'`, on which `parseFloat` yields `NaN` again), the
state is modelled as that number. -/
structure State where
  formData : PurchaseForm
  selectedItem : Option Item
  quantity : String
  weight : String
  weightUnit : WeightUnit
  costPerUnit : String
  totalCost : JSNum
  error : Option String
deriving DecidableEq, Repr

/-- The `const subtotal = formData.items.reduce((sum, item) => sum +
item.totalCost, 0)` line of the totals effect. -/
def subtotalOf (its : List PurchaseItem) : JSNum :=
  its.foldl (fun sum it => jsAdd sum it.totalCost) (some 0)

/-- The totals-recalculation `useEffect` of `EditPurchase`: on an absent
or empty item list it zeroes the aggregates; otherwise
`subtotal = Σ totalCost`, `taxAmount = subtotal * ((taxRate || 0) / 100)`,
`total = subtotal + taxAmount + (shippingCost || 0)`, with no clamp. -/
def recalcTotals (f : PurchaseForm) : PurchaseForm :=
  if (f.items.getD []).isEmpty then
    { f with subtotal := some 0, taxAmount := some 0, total := some 0 }
  else
    let subtotal := subtotalOf (f.items.getD [])
    let taxAmount := jsMul subtotal (some ((f.taxRate.getD 0) / 100))
    let shippingCost := f.shippingCost.getD 0
    let total := jsAdd (jsAdd subtotal taxAmount) (some shippingCost)
    { f with subtotal := subtotal, taxAmount := taxAmount, total := total }

/-- The `useEffect` of `EditPurchase` keeping the `totalCost` entry state
in sync: with a weight-tracked selection,
`parseFloat(weight) * parseFloat(costPerUnit || '0')`, otherwise
`parseInt(quantity) * parseFloat(costPerUnit || '0')`; no update when no
item is selected. -/
def updateTotalCost (s : State) : State :=
  match s.selectedItem with
  | none => s
  | some sel =>
    let cpu := jsParseFloat (if s.costPerUnit = "" then "0" else s.costPerUnit)
    if sel.trackingType = some TrackingType.weight then
      { s with totalCost := jsMul (jsParseFloat s.weight) cpu }
    else
      { s with totalCost := jsMul (jsParseIntNum s.quantity) cpu }

/-- Supplier object with every field absent: what `{ ...prev.supplier }`
spreads when `prev.supplier` is `undefined`. -/
def emptySupplier : Supplier :=
  { name := none, contactName := none, email := none, phone := none }

/-- The text fields `handleTextChange` dispatches on in `EditPurchase`
(`'supplier.…'` prefixed names update the supplier sub-object). -/
inductive Field
  | supplierName
  | supplierContactName
  | supplierEmail
  | supplierPhone
  | taxRate
  | shippingCost
  | notes
deriving DecidableEq, Repr

/-- `handleTextChange` of `EditPurchase`: `supplier.…` fields spread the
previous supplier and overwrite one field with the raw string; `taxRate`
and `shippingCost` store `parseFloat(value) || 0`; other fields store the
raw string. -/
def handleTextChange (f : PurchaseForm) (field : Field) (value : String) : PurchaseForm :=
  match field with
  | .supplierName =>
    { f with supplier := some { f.supplier.getD emptySupplier with name := some value } }
  | .supplierContactName =>
    { f with supplier := some { f.supplier.getD emptySupplier with contactName := some value } }
  | .supplierEmail =>
    { f with supplier := some { f.supplier.getD emptySupplier with email := some value } }
  | .supplierPhone =>
    { f with supplier := some { f.supplier.getD emptySupplier with phone := some value } }
  | .taxRate => { f with taxRate := some ((jsParseFloat value).getD 0) }
  | .shippingCost => { f with shippingCost := some ((jsParseFloat value).getD 0) }
  | .notes => { f with notes := some value }

/-- `handleAddItem` of `EditPurchase`: return unchanged when no item is
selected; otherwise build
`{ item: selectedItem._id || '', costPerUnit: parseFloat(costPerUnit),
totalCost: parseFloat(totalCost) }`, add `weight`/`weightUnit` for a
weight-tracked selection and `quantity` otherwise, append it to
`formData.items`, and reset the entry state.  No positivity or stock
check is performed. -/
def handleAddItem (s : State) : State :=
  match s.selectedItem with
  | none => s
  | some sel =>
    let base : PurchaseItem :=
      { item := sel._id.getD "", quantity := none, weight := none, weightUnit := none,
        costPerUnit := jsParseFloat s.costPerUnit, totalCost := s.totalCost }
    let newItem : PurchaseItem :=
      if sel.trackingType = some TrackingType.weight then
        { base with weight := some (jsParseFloat s.weight), weightUnit := some s.weightUnit }
      else
        { base with quantity := some (jsParseIntNum s.quantity) }
    { s with
      formData := { s.formData with
        items := some ((s.formData.items.getD []) ++ [newItem]) }
      selectedItem := none
      quantity := "1"
      weight := "0"
      costPerUnit := "0"
      totalCost := some 0 }

/-- `handleSave` of `EditPurchase`, reduced to its data flow: reject
(`none`, with an error message shown) when `formData.supplier?.name` is
absent or empty or when `formData.items` is absent or empty; otherwise
the document handed to `purchasesApi.update` is `formData`. -/
def handleSave (f : PurchaseForm) : Option PurchaseForm :=
  if (f.supplier.bind Supplier.name).getD "" = "" then none
  else if (f.items.getD []).isEmpty then none
  else some f

end EditPurchase

section Helpers

/-- Folding `+` over mapped line totals is the sum of the mapped list. -/
theorem foldl_add_eq_sum (g : SaleItem → ℚ) :
    ∀ (l : List SaleItem) (a : ℚ),
      l.foldl (fun sum it => sum + g it) a = a + (l.map g).sum
  | [], a => by simp
  | x :: xs, a => by
    rw [List.foldl_cons, foldl_add_eq_sum g xs, List.map_cons, List.sum_cons, add_assoc]

/-- Folding `jsAdd` over `NaN`-free stored line totals is the exact sum. -/
theorem foldl_jsAdd_eq_sum :
    ∀ (l : List PurchaseItem), (∀ it ∈ l, it.totalCost.isSome) → ∀ a : ℚ,
      l.foldl (fun sum it => jsAdd sum it.totalCost) (some a) =
        some (a + (l.map fun it => it.totalCost.getD 0).sum)
  | [], _, a => by simp
  | x :: xs, h, a => by
    obtain ⟨q, hq⟩ := Option.isSome_iff_exists.mp (h x (List.mem_cons_self x xs))
    rw [List.foldl_cons, hq]
    show xs.foldl (fun sum it => jsAdd sum it.totalCost) (some (a + q)) = _
    rw [foldl_jsAdd_eq_sum xs (fun it hit => h it (List.mem_cons_of_mem x hit)) (a + q)]
    simp [hq, add_assoc]

/-- The sale recomputation never stores a negative total (both branches). -/
theorem recalcTotals_total_nonneg (g : SaleForm) (t : ℚ)
    (h : (NewSale.recalcTotals g).total = some t) : 0 ≤ t := by
  rw [NewSale.recalcTotals] at h
  by_cases hc : (g.items.getD []).isEmpty
  · rw [if_pos hc] at h
    simp only [Option.some.injEq] at h
    exact le_of_eq h
  · rw [if_neg hc] at h
    simp only [Option.some.injEq] at h
    subst h
    split
    · exact le_refl 0
    · next hlt => exact le_of_not_lt hlt

end Helpers

section ClaimC1

/-- C1: for every sale recomputation over a non-empty line-item list the
stored total equals `max 0 (subtotal + taxAmount - discountAmount)` (the
recomputed aggregates and the form's discount), and the stored sale total
is never negative, even when the discount exceeds `subtotal + taxAmount`. -/
theorem sale_total_clamped_and_nonneg (f : SaleForm) (its : List SaleItem)
    (hits : f.items = some its) (hne : its ≠ []) :
    (NewSale.recalcTotals f).total =
      some (max 0 ((NewSale.recalcTotals f).subtotal.getD 0 +
        (NewSale.recalcTotals f).taxAmount.getD 0 - f.discountAmount.getD 0)) ∧
    0 ≤ (NewSale.recalcTotals f).total.getD 0 := by
  obtain ⟨x, xs, rfl⟩ := List.exists_cons_of_ne_nil hne
  constructor
  · rw [NewSale.recalcTotals, hits]
    simp only [Option.getD_some, List.isEmpty_cons, Bool.false_eq_true, if_false,
      Option.getD_some]
    rcases lt_or_le (NewSale.subtotalOf (x :: xs) +
        NewSale.subtotalOf (x :: xs) * (f.taxRate.getD 0 / 100) -
        f.discountAmount.getD 0) 0 with hlt | hle
    · rw [if_pos hlt, max_eq_left (le_of_lt hlt)]
    · rw [if_neg (not_lt.mpr hle), max_eq_right hle]
  · rcases h : (NewSale.recalcTotals f).total with _ | t
    · exact le_refl 0
    · exact recalcTotals_total_nonneg f t h

/-- Witness for C1: one line of 2 × $10 at 7.5% tax with a $50 discount;
the raw total is negative, the stored one clamps to the maximum with 0. -/
theorem sale_total_clamped_and_nonneg_witness :
    (NewSale.recalcTotals
        ⟨some "", some "", some "", some [⟨"a", 2, 10⟩], some 0, some (15/2), some 0,
          some 50, some 0, some PaymentMethod.cash, some "", some SaleStatus.completed⟩).total =
      some (max 0 ((NewSale.recalcTotals
        ⟨some "", some "", some "", some [⟨"a", 2, 10⟩], some 0, some (15/2), some 0,
          some 50, some 0, some PaymentMethod.cash, some "", some SaleStatus.completed⟩).subtotal.getD 0 +
        (NewSale.recalcTotals
        ⟨some "", some "", some "", some [⟨"a", 2, 10⟩], some 0, some (15/2), some 0,
          some 50, some 0, some PaymentMethod.cash, some "", some SaleStatus.completed⟩).taxAmount.getD 0 -
        (⟨some "", some "", some "", some [⟨"a", 2, 10⟩], some 0, some (15/2), some 0,
          some 50, some 0, some PaymentMethod.cash, some "", some SaleStatus.completed⟩ :
            SaleForm).discountAmount.getD 0)) ∧
    0 ≤ (NewSale.recalcTotals
        ⟨some "", some "", some "", some [⟨"a", 2, 10⟩], some 0, some (15/2), some 0,
          some 50, some 0, some PaymentMethod.cash, some "", some SaleStatus.completed⟩).total.getD 0 :=
  sale_total_clamped_and_nonneg _ [⟨"a", 2, 10⟩] rfl (List.cons_ne_nil _ _)

end ClaimC1

section SubtotalHelpers

/-- The sale reduce-line computes exactly the sum of `quantity × priceAtSale`. -/
theorem sale_subtotalOf_eq (its : List SaleItem) :
    NewSale.subtotalOf its = (its.map fun it => it.quantity * it.priceAtSale).sum := by
  rw [NewSale.subtotalOf, foldl_add_eq_sum, zero_add]

/-- The purchase reduce-line computes exactly the sum of the stored
`totalCost` fields when none of them is `NaN`. -/
theorem purchase_subtotalOf_eq (pits : List PurchaseItem)
    (h : ∀ it ∈ pits, it.totalCost.isSome) :
    EditPurchase.subtotalOf pits = some ((pits.map fun it => it.totalCost.getD 0).sum) := by
  rw [EditPurchase.subtotalOf, foldl_jsAdd_eq_sum pits h 0, zero_add]

end SubtotalHelpers

section ClaimC2

/-- C2: over any non-empty line-item list (with `NaN`-free stored totals on
the purchase side) the recomputed `subtotal` is the exact sum of the
per-line totals — `quantity × priceAtSale` per sale line, the stored
`totalCost` per purchase line — and `taxAmount` is exactly
`subtotal × taxRate / 100`, with no rounding. -/
theorem subtotal_and_tax_exact (f : SaleForm) (its : List SaleItem)
    (hits : f.items = some its) (hne : its ≠ [])
    (g : PurchaseForm) (pits : List PurchaseItem)
    (hpits : g.items = some pits) (hpne : pits ≠ [])
    (hnum : ∀ it ∈ pits, it.totalCost.isSome) :
    (NewSale.recalcTotals f).subtotal =
      some ((its.map fun it => it.quantity * it.priceAtSale).sum) ∧
    (NewSale.recalcTotals f).taxAmount =
      some ((its.map fun it => it.quantity * it.priceAtSale).sum * (f.taxRate.getD 0 / 100)) ∧
    (EditPurchase.recalcTotals g).subtotal =
      some ((pits.map fun it => it.totalCost.getD 0).sum) ∧
    (EditPurchase.recalcTotals g).taxAmount =
      some ((pits.map fun it => it.totalCost.getD 0).sum * (g.taxRate.getD 0 / 100)) := by
  obtain ⟨x, xs, rfl⟩ := List.exists_cons_of_ne_nil hne
  obtain ⟨y, ys, rfl⟩ := List.exists_cons_of_ne_nil hpne
  refine ⟨?_, ?_, ?_, ?_⟩
  · rw [NewSale.recalcTotals, hits]
    simp [sale_subtotalOf_eq]
  · rw [NewSale.recalcTotals, hits]
    simp [sale_subtotalOf_eq]
  · rw [EditPurchase.recalcTotals, hpits]
    simp [purchase_subtotalOf_eq _ hnum]
  · rw [EditPurchase.recalcTotals, hpits]
    simp [purchase_subtotalOf_eq _ hnum, jsMul]

end ClaimC2

section ClaimC2Witness

/-- Witness for C2: a two-line sale at 7.5% tax and a one-line purchase at
5% tax, both instantiating the exact-sum and exact-tax equations. -/
theorem subtotal_and_tax_exact_witness :
    (NewSale.recalcTotals
        ⟨some "", some "", some "", some [⟨"a", 2, 10⟩, ⟨"b", 1, 5⟩], some 0, some (15/2),
          some 0, some 2, some 0, some PaymentMethod.cash, some "",
          some SaleStatus.completed⟩).subtotal =
      some (([⟨"a", 2, 10⟩, ⟨"b", 1, 5⟩] : List SaleItem).map
        (fun it => it.quantity * it.priceAtSale)).sum ∧
    (NewSale.recalcTotals
        ⟨some "", some "", some "", some [⟨"a", 2, 10⟩, ⟨"b", 1, 5⟩], some 0, some (15/2),
          some 0, some 2, some 0, some PaymentMethod.cash, some "",
          some SaleStatus.completed⟩).taxAmount =
      some ((([⟨"a", 2, 10⟩, ⟨"b", 1, 5⟩] : List SaleItem).map
        (fun it => it.quantity * it.priceAtSale)).sum *
        ((⟨some "", some "", some "", some [⟨"a", 2, 10⟩, ⟨"b", 1, 5⟩], some 0, some (15/2),
          some 0, some 2, some 0, some PaymentMethod.cash, some "",
          some SaleStatus.completed⟩ : SaleForm).taxRate.getD 0 / 100)) ∧
    (EditPurchase.recalcTotals
        ⟨some ⟨some "Acme", none, none, none⟩,
          some [⟨"p", some (some 10), none, none, some (5/2), some 25⟩], some 0, some 5,
          some 0, some 12, some 0, some PaymentMethod.cash, some PurchaseStatus.received,
          some ""⟩).subtotal =
      some (([⟨"p", some (some 10), none, none, some (5/2), some 25⟩] : List PurchaseItem).map
        (fun it => it.totalCost.getD 0)).sum ∧
    (EditPurchase.recalcTotals
        ⟨some ⟨some "Acme", none, none, none⟩,
          some [⟨"p", some (some 10), none, none, some (5/2), some 25⟩], some 0, some 5,
          some 0, some 12, some 0, some PaymentMethod.cash, some PurchaseStatus.received,
          some ""⟩).taxAmount =
      some ((([⟨"p", some (some 10), none, none, some (5/2), some 25⟩] : List PurchaseItem).map
        (fun it => it.totalCost.getD 0)).sum *
        ((⟨some ⟨some "Acme", none, none, none⟩,
          some [⟨"p", some (some 10), none, none, some (5/2), some 25⟩], some 0, some 5,
          some 0, some 12, some 0, some PaymentMethod.cash, some PurchaseStatus.received,
          some ""⟩ : PurchaseForm).taxRate.getD 0 / 100)) :=
  subtotal_and_tax_exact _ [⟨"a", 2, 10⟩, ⟨"b", 1, 5⟩] rfl (List.cons_ne_nil _ _)
    _ [⟨"p", some (some 10), none, none, some (5/2), some 25⟩] rfl (List.cons_ne_nil _ _)
    (by simp)

end ClaimC2Witness

section ClaimC3

/-- C3: for every purchase recomputation over a non-empty line-item list
with `NaN`-free stored totals, the stored total is exactly
`subtotal + taxAmount + shippingCost` (the recomputed aggregates and the
form's shipping cost), with no floor-at-zero clamp — the equation holds
unconditionally, negative results included. -/
theorem purchase_total_unclamped (g : PurchaseForm) (pits : List PurchaseItem)
    (hpits : g.items = some pits) (hpne : pits ≠ [])
    (hnum : ∀ it ∈ pits, it.totalCost.isSome) :
    (EditPurchase.recalcTotals g).total =
      some ((EditPurchase.recalcTotals g).subtotal.getD 0 +
        (EditPurchase.recalcTotals g).taxAmount.getD 0 + g.shippingCost.getD 0) := by
  obtain ⟨y, ys, rfl⟩ := List.exists_cons_of_ne_nil hpne
  rw [EditPurchase.recalcTotals, hpits]
  simp [purchase_subtotalOf_eq _ hnum, jsMul, jsAdd]

/-- Witness for C3: one $25 purchase line, 0% tax, shipping entered as
−30; the stored total is the negative −5, not clamped to 0. -/
theorem purchase_total_unclamped_witness :
    (EditPurchase.recalcTotals
        ⟨some ⟨some "Acme", none, none, none⟩,
          some [⟨"p", some (some 10), none, none, some (5/2), some 25⟩], some 0, some 0,
          some 0, some (-30), some 0, some PaymentMethod.cash, some PurchaseStatus.received,
          some ""⟩).total =
      some ((EditPurchase.recalcTotals
        ⟨some ⟨some "Acme", none, none, none⟩,
          some [⟨"p", some (some 10), none, none, some (5/2), some 25⟩], some 0, some 0,
          some 0, some (-30), some 0, some PaymentMethod.cash, some PurchaseStatus.received,
          some ""⟩).subtotal.getD 0 +
        (EditPurchase.recalcTotals
        ⟨some ⟨some "Acme", none, none, none⟩,
          some [⟨"p", some (some 10), none, none, some (5/2), some 25⟩], some 0, some 0,
          some 0, some (-30), some 0, some PaymentMethod.cash, some PurchaseStatus.received,
          some ""⟩).taxAmount.getD 0 +
        (⟨some ⟨some "Acme", none, none, none⟩,
          some [⟨"p", some (some 10), none, none, some (5/2), some 25⟩], some 0, some 0,
          some 0, some (-30), some 0, some PaymentMethod.cash, some PurchaseStatus.received,
          some ""⟩ : PurchaseForm).shippingCost.getD 0) :=
  purchase_total_unclamped _ [⟨"p", some (some 10), none, none, some (5/2), some 25⟩] rfl
    (List.cons_ne_nil _ _) (by simp)

end ClaimC3

section ClaimC4

/-- C4: recomputation over an empty line-item sequence stores
`subtotal = taxAmount = total = 0` in both the sale and the purchase
variant, whatever the tax rate, discount and shipping fields hold. -/
theorem empty_items_zero_totals (f : SaleForm) (g : PurchaseForm)
    (hf : f.items = some []) (hg : g.items = some []) :
    (NewSale.recalcTotals f).subtotal = some 0 ∧
    (NewSale.recalcTotals f).taxAmount = some 0 ∧
    (NewSale.recalcTotals f).total = some 0 ∧
    (EditPurchase.recalcTotals g).subtotal = some 0 ∧
    (EditPurchase.recalcTotals g).taxAmount = some 0 ∧
    (EditPurchase.recalcTotals g).total = some 0 := by
  rw [NewSale.recalcTotals, EditPurchase.recalcTotals, hf, hg]
  simp

/-- Witness for C4: empty item lists with nonzero tax rate, discount and
shipping still recompute to all-zero aggregates. -/
theorem empty_items_zero_totals_witness :
    (NewSale.recalcTotals
        ⟨some "", some "", some "", some [], some 9, some (15/2), some 9, some 4, some 9,
          some PaymentMethod.cash, some "", some SaleStatus.completed⟩).subtotal = some 0 ∧
    (NewSale.recalcTotals
        ⟨some "", some "", some "", some [], some 9, some (15/2), some 9, some 4, some 9,
          some PaymentMethod.cash, some "", some SaleStatus.completed⟩).taxAmount = some 0 ∧
    (NewSale.recalcTotals
        ⟨some "", some "", some "", some [], some 9, some (15/2), some 9, some 4, some 9,
          some PaymentMethod.cash, some "", some SaleStatus.completed⟩).total = some 0 ∧
    (EditPurchase.recalcTotals
        ⟨some ⟨some "Acme", none, none, none⟩, some [], some 9, some 5, some 9, some 12,
          some 9, some PaymentMethod.cash, some PurchaseStatus.received,
          some ""⟩).subtotal = some 0 ∧
    (EditPurchase.recalcTotals
        ⟨some ⟨some "Acme", none, none, none⟩, some [], some 9, some 5, some 9, some 12,
          some 9, some PaymentMethod.cash, some PurchaseStatus.received,
          some ""⟩).taxAmount = some 0 ∧
    (EditPurchase.recalcTotals
        ⟨some ⟨some "Acme", none, none, none⟩, some [], some 9, some 5, some 9, some 12,
          some 9, some PaymentMethod.cash, some PurchaseStatus.received,
          some ""⟩).total = some 0 :=
  empty_items_zero_totals _ _ rfl rfl

end ClaimC4

section ClaimC10

/-- C10: the totals recomputation writes only `subtotal`, `taxAmount` and
`total`; every other field of the sale form (customer fields, items,
taxRate, discountAmount, paymentMethod, notes, status) and of the
purchase form (supplier, items, taxRate, shippingCost, paymentMethod,
status, notes) is left unchanged, in both variants and in both the empty
and the non-empty branch. -/
theorem recalc_writes_only_aggregates (f : SaleForm) (g : PurchaseForm) :
    ((NewSale.recalcTotals f).customerName = f.customerName ∧
     (NewSale.recalcTotals f).customerEmail = f.customerEmail ∧
     (NewSale.recalcTotals f).customerPhone = f.customerPhone ∧
     (NewSale.recalcTotals f).items = f.items ∧
     (NewSale.recalcTotals f).taxRate = f.taxRate ∧
     (NewSale.recalcTotals f).discountAmount = f.discountAmount ∧
     (NewSale.recalcTotals f).paymentMethod = f.paymentMethod ∧
     (NewSale.recalcTotals f).notes = f.notes ∧
     (NewSale.recalcTotals f).status = f.status) ∧
    ((EditPurchase.recalcTotals g).supplier = g.supplier ∧
     (EditPurchase.recalcTotals g).items = g.items ∧
     (EditPurchase.recalcTotals g).taxRate = g.taxRate ∧
     (EditPurchase.recalcTotals g).shippingCost = g.shippingCost ∧
     (EditPurchase.recalcTotals g).paymentMethod = g.paymentMethod ∧
     (EditPurchase.recalcTotals g).status = g.status ∧
     (EditPurchase.recalcTotals g).notes = g.notes) := by
  constructor
  · by_cases h : (f.items.getD []).isEmpty <;>
      simp [NewSale.recalcTotals, h]
  · by_cases h : (g.items.getD []).isEmpty <;>
      simp [EditPurchase.recalcTotals, h]

end ClaimC10

section ClaimC7

/-- C7: sale-side line-item addition rejects exactly when no item is
selected, or the entered quantity does not parse, or it is non-positive,
or it exceeds the selected item's on-hand quantity; rejection leaves the
line-item sequence unchanged, and in the remaining case the new line is
appended with `priceAtSale` equal to the selected item's current price. -/
theorem sale_add_item_validation (s : NewSale.State) :
    ((NewSale.handleAddItem s).formData.items = s.formData.items ↔
      s.selectedItem = none ∨
      ∃ sel, s.selectedItem = some sel ∧
        (jsParseInt s.selectedQuantity = none ∨
         ∃ q, jsParseInt s.selectedQuantity = some q ∧
           (q ≤ 0 ∨ (q : ℚ) > sel.quantity))) ∧
    (∀ sel q, s.selectedItem = some sel → jsParseInt s.selectedQuantity = some q →
      0 < q → (q : ℚ) ≤ sel.quantity →
      (NewSale.handleAddItem s).formData.items =
        some ((s.formData.items.getD []) ++
          [{ item := sel._id.getD "", quantity := (q : ℚ), priceAtSale := sel.price }])) := by
  rcases hsel : s.selectedItem with _ | sel
  · refine ⟨?_, ?_⟩
    · simp [NewSale.handleAddItem, hsel]
    · intro sel q hsel2 _ _ _
      exact Option.noConfusion hsel2
  · rcases hq : jsParseInt s.selectedQuantity with _ | q
    · refine ⟨?_, ?_⟩
      · simp [NewSale.handleAddItem, hsel, hq]
      · intro sel2 q hsel2 hq2 _ _
        exact Option.noConfusion hq2
    · by_cases h1 : q ≤ 0
      · refine ⟨?_, ?_⟩
        · simp only [NewSale.handleAddItem, hsel, hq, if_pos h1]
          simp only [true_iff]
          exact Or.inr ⟨sel, rfl, Or.inr ⟨q, rfl, Or.inl h1⟩⟩
        · intro sel2 q2 hsel2 hq2 hpos _
          injection hq2 with hq2
          subst hq2
          exact absurd hpos (not_lt.mpr h1)
      · by_cases h2 : (q : ℚ) > sel.quantity
        · refine ⟨?_, ?_⟩
          · simp only [NewSale.handleAddItem, hsel, hq, if_neg h1, if_pos h2]
            simp only [true_iff]
            exact Or.inr ⟨sel, rfl, Or.inr ⟨q, rfl, Or.inr h2⟩⟩
          · intro sel2 q2 hsel2 hq2 _ hle
            injection hq2 with hq2
            injection hsel2 with hsel2
            subst hq2
            subst hsel2
            exact absurd hle (not_le.mpr h2)
        · refine ⟨?_, ?_⟩
          · simp only [NewSale.handleAddItem, hsel, hq, if_neg h1, if_neg h2]
            constructor
            · intro hitems
              exfalso
              rcases hv : s.formData.items with _ | l
              · rw [hv] at hitems
                simp at hitems
              · rw [hv] at hitems
                simp only [Option.getD_some, Option.some.injEq] at hitems
                have := congrArg List.length hitems
                simp at this
            · rintro (hnone | ⟨sel2, hsel2, hrest⟩)
              · exact absurd hnone (by simp)
              · injection hsel2 with hsel2
                subst hsel2
                rcases hrest with hnone2 | ⟨q2, hq2, hbad⟩
                · exact absurd hnone2 (by simp)
                · injection hq2 with hq2
                  subst hq2
                  rcases hbad with hbad | hbad
                  · exact absurd hbad h1
                  · exact absurd hbad h2
          · intro sel2 q2 hsel2 hq2 _ _
            injection hsel2 with hsel2
            injection hq2 with hq2
            subst hsel2
            subst hq2
            simp [NewSale.handleAddItem, hsel, hq, if_neg h1, if_neg h2]

end ClaimC7

section MoreHelpers

/-- Multiplying by `NaN` yields `NaN`, whatever the other factor. -/
theorem jsMul_none_right (x : JSNum) : jsMul x none = none := by
  cases x <;> rfl

end MoreHelpers

section ClaimC9

/-- C9: sale submission is rejected exactly when the line-item list is
absent/empty or the (0-defaulted) total is ≤ 0, and purchase submission
is rejected exactly when the supplier name is absent/blank or the
line-item list is absent/empty — with no total-positivity condition on
the purchase side; in every rejection case nothing is submitted
(`none`). -/
theorem submission_validation_iff (f : SaleForm) (g : PurchaseForm) :
    (NewSale.handleSubmit f = none ↔
      (f.items.getD []).isEmpty = true ∨ f.total.getD 0 ≤ 0) ∧
    (EditPurchase.handleSave g = none ↔
      (g.supplier.bind Supplier.name).getD "" = "" ∨ (g.items.getD []).isEmpty = true) := by
  constructor
  · rw [NewSale.handleSubmit, NewSale.validateForm]
    by_cases h1 : (f.items.getD []).isEmpty
    · simp [h1]
    · by_cases h2 : f.total.getD 0 ≤ 0 <;> simp [h1, h2]
  · rw [EditPurchase.handleSave]
    by_cases h1 : (g.supplier.bind Supplier.name).getD "" = ""
    · simp [h1]
    · by_cases h2 : (g.items.getD []).isEmpty <;> simp [h1, h2]

end ClaimC9

section ClaimC6

/-- C6 fails on the purchase side: adding a line with the quantity text
"0" (a supplied quantity-or-weight ≤ 0) to an empty purchase is not
rejected — the line-item sequence receives one line whose quantity is 0. -/
theorem purchase_add_nonpositive_quantity_appended :
    ((EditPurchase.handleAddItem
        ⟨⟨some ⟨some "Acme", none, none, none⟩, some [], some 0, some 0, some 0, some 0,
            some 0, some PaymentMethod.cash, some PurchaseStatus.received, some ""⟩,
          some ⟨some "i1", "Widget", "SKU1", "general", 5, 4, some 3,
            some TrackingType.quantity, none, none⟩,
          "0", "0", WeightUnit.lb, "", some 0, none⟩).formData.items.getD []).map
      PurchaseItem.quantity = [some (some 0)] := by
  simp +decide [EditPurchase.handleAddItem, jsParseIntNum, jsParseInt, parseSign,
    parseDigitsAux]

/-- C6 (amended): the sale-side addition rejects a parsed quantity ≤ 0,
leaving the form data unchanged and setting the positive-quantity error;
the purchase-side addition performs no quantity/weight positivity check
and appends a line whenever an item is selected. -/
theorem nonpositive_quantity_rejected_sale_side_only (s : NewSale.State) (sel : Item)
    (q : Int) (p : EditPurchase.State) (psel : Item)
    (hsel : s.selectedItem = some sel)
    (hq : jsParseInt s.selectedQuantity = some q) (hle : q ≤ 0)
    (hpsel : p.selectedItem = some psel) :
    (NewSale.handleAddItem s).formData = s.formData ∧
    (NewSale.handleAddItem s).error = some NewSale.AddError.positiveQuantity ∧
    ((EditPurchase.handleAddItem p).formData.items.getD []).length =
      (p.formData.items.getD []).length + 1 := by
  refine ⟨?_, ?_, ?_⟩
  · simp [NewSale.handleAddItem, hsel, hq, if_pos hle]
  · simp [NewSale.handleAddItem, hsel, hq, if_pos hle]
  · simp [EditPurchase.handleAddItem, hpsel]

/-- Witness for the amended C6: a sale addition with quantity text "0" is
rejected with the form untouched, while a purchase addition with the same
quantity text grows the empty item list to one element. -/
theorem nonpositive_quantity_rejected_sale_side_only_witness :
    (NewSale.handleAddItem
        ⟨⟨some "", some "", some "", some [], some 0, some (15/2), some 0, some 0, some 0,
            some PaymentMethod.cash, some "", some SaleStatus.completed⟩,
          some ⟨some "i1", "Widget", "SKU1", "general", 5, 4, some 3,
            some TrackingType.quantity, none, none⟩, "0", none⟩).formData =
      (⟨⟨some "", some "", some "", some [], some 0, some (15/2), some 0, some 0, some 0,
            some PaymentMethod.cash, some "", some SaleStatus.completed⟩,
          some ⟨some "i1", "Widget", "SKU1", "general", 5, 4, some 3,
            some TrackingType.quantity, none, none⟩, "0", none⟩ : NewSale.State).formData ∧
    (NewSale.handleAddItem
        ⟨⟨some "", some "", some "", some [], some 0, some (15/2), some 0, some 0, some 0,
            some PaymentMethod.cash, some "", some SaleStatus.completed⟩,
          some ⟨some "i1", "Widget", "SKU1", "general", 5, 4, some 3,
            some TrackingType.quantity, none, none⟩, "0", none⟩).error =
      some NewSale.AddError.positiveQuantity ∧
    ((EditPurchase.handleAddItem
        ⟨⟨some ⟨some "Acme", none, none, none⟩, some [], some 0, some 0, some 0, some 0,
            some 0, some PaymentMethod.cash, some PurchaseStatus.received, some ""⟩,
          some ⟨some "i1", "Widget", "SKU1", "general", 5, 4, some 3,
            some TrackingType.quantity, none, none⟩,
          "0", "0", WeightUnit.lb, "", some 0, none⟩).formData.items.getD []).length =
      ((⟨⟨some ⟨some "Acme", none, none, none⟩, some [], some 0, some 0, some 0, some 0,
            some 0, some PaymentMethod.cash, some PurchaseStatus.received, some ""⟩,
          some ⟨some "i1", "Widget", "SKU1", "general", 5, 4, some 3,
            some TrackingType.quantity, none, none⟩,
          "0", "0", WeightUnit.lb, "", some 0, none⟩ :
            EditPurchase.State).formData.items.getD []).length + 1 :=
  nonpositive_quantity_rejected_sale_side_only _
    ⟨some "i1", "Widget", "SKU1", "general", 5, 4, some 3,
      some TrackingType.quantity, none, none⟩ 0 _
    ⟨some "i1", "Widget", "SKU1", "general", 5, 4, some 3,
      some TrackingType.quantity, none, none⟩ rfl (by decide) (by decide) rfl

end ClaimC6

section ClaimC5

/-- C5 fails for costPerUnit: typing "abc" into the purchase cost-per-unit
field with quantity "2" is not coerced to 0 — the synced line total is
`NaN`, the added line stores it, and the recomputed aggregate `subtotal`,
`taxAmount` and `total` are all `NaN` (`none`), so the parse error does
propagate into the aggregates instead of storing 0. -/
theorem unparseable_cost_propagates_to_aggregate :
    (EditPurchase.recalcTotals
        (EditPurchase.handleAddItem (EditPurchase.updateTotalCost
          ⟨⟨some ⟨some "Acme", none, none, none⟩, some [], some 0, some 0, some 0, some 0,
              some 0, some PaymentMethod.cash, some PurchaseStatus.received, some ""⟩,
            some ⟨some "i1", "Widget", "SKU1", "general", 5, 4, some 3,
              some TrackingType.quantity, none, none⟩,
            "2", "0", WeightUnit.lb, "abc", some 0, none⟩)).formData).subtotal = none ∧
    (EditPurchase.recalcTotals
        (EditPurchase.handleAddItem (EditPurchase.updateTotalCost
          ⟨⟨some ⟨some "Acme", none, none, none⟩, some [], some 0, some 0, some 0, some 0,
              some 0, some PaymentMethod.cash, some PurchaseStatus.received, some ""⟩,
            some ⟨some "i1", "Widget", "SKU1", "general", 5, 4, some 3,
              some TrackingType.quantity, none, none⟩,
            "2", "0", WeightUnit.lb, "abc", some 0, none⟩)).formData).total = none := by
  constructor <;>
    simp +decide [EditPurchase.recalcTotals, EditPurchase.handleAddItem,
      EditPurchase.updateTotalCost, EditPurchase.subtotalOf, jsParseIntNum, jsParseInt,
      jsParseFloat, parseSign, parseDigitsAux, jsMul, jsAdd]

/-- C5 (amended): the parse-failure-to-0 coercion holds for the sale
form's taxRate and discountAmount and the purchase form's taxRate and
shippingCost (any unparseable text, the empty string included, stores 0);
it does not hold for costPerUnit: with an item selected and a non-empty
unparseable costPerUnit text, the synced purchase line total is `NaN`
rather than 0 (and the sale side rejects an unparseable quantity instead
of storing 0, see the addition-validation theorem). -/
theorem unparseable_text_coercion (f : SaleForm) (g : PurchaseForm) (v : String)
    (s : EditPurchase.State) (sel : Item) (hv : jsParseFloat v = none)
    (hsel : s.selectedItem = some sel) (hcpu : s.costPerUnit = v) (hne : v ≠ "") :
    (NewSale.handleTextChange f NewSale.Field.taxRate v).taxRate = some 0 ∧
    (NewSale.handleTextChange f NewSale.Field.discountAmount v).discountAmount = some 0 ∧
    (EditPurchase.handleTextChange g EditPurchase.Field.taxRate v).taxRate = some 0 ∧
    (EditPurchase.handleTextChange g EditPurchase.Field.shippingCost v).shippingCost =
      some 0 ∧
    (EditPurchase.updateTotalCost s).totalCost = none := by
  refine ⟨?_, ?_, ?_, ?_, ?_⟩
  · simp [NewSale.handleTextChange, hv]
  · simp [NewSale.handleTextChange, hv]
  · simp [EditPurchase.handleTextChange, hv]
  · simp [EditPurchase.handleTextChange, hv]
  · rw [EditPurchase.updateTotalCost, hsel]
    by_cases ht : sel.trackingType = some TrackingType.weight <;>
      simp [ht, hcpu, hne, hv, jsMul_none_right]

/-- Witness for the amended C5: the text "abc" stores 0 in all four
coerced fields, while the same text in costPerUnit yields a `NaN` line
total. -/
theorem unparseable_text_coercion_witness :
    (NewSale.handleTextChange
        ⟨some "", some "", some "", some [], some 0, some (15/2), some 0, some 0, some 0,
          some PaymentMethod.cash, some "", some SaleStatus.completed⟩
        NewSale.Field.taxRate "abc").taxRate = some 0 ∧
    (NewSale.handleTextChange
        ⟨some "", some "", some "", some [], some 0, some (15/2), some 0, some 0, some 0,
          some PaymentMethod.cash, some "", some SaleStatus.completed⟩
        NewSale.Field.discountAmount "abc").discountAmount = some 0 ∧
    (EditPurchase.handleTextChange
        ⟨some ⟨some "Acme", none, none, none⟩, some [], some 0, some 0, some 0, some 0,
          some 0, some PaymentMethod.cash, some PurchaseStatus.received, some ""⟩
        EditPurchase.Field.taxRate "abc").taxRate = some 0 ∧
    (EditPurchase.handleTextChange
        ⟨some ⟨some "Acme", none, none, none⟩, some [], some 0, some 0, some 0, some 0,
          some 0, some PaymentMethod.cash, some PurchaseStatus.received, some ""⟩
        EditPurchase.Field.shippingCost "abc").shippingCost = some 0 ∧
    (EditPurchase.updateTotalCost
        ⟨⟨some ⟨some "Acme", none, none, none⟩, some [], some 0, some 0, some 0, some 0,
            some 0, some PaymentMethod.cash, some PurchaseStatus.received, some ""⟩,
          some ⟨some "i1", "Widget", "SKU1", "general", 5, 4, some 3,
            some TrackingType.quantity, none, none⟩,
          "2", "0", WeightUnit.lb, "abc", some 0, none⟩).totalCost = none :=
  unparseable_text_coercion _ _ "abc" _
    ⟨some "i1", "Widget", "SKU1", "general", 5, 4, some 3,
      some TrackingType.quantity, none, none⟩
    (by decide) rfl rfl (by decide)

end ClaimC5

section ClaimC8

/-- C8 fails for an empty costPerUnit text: the synced-then-added line
stores quantity 2 and `totalCost = 0` (from `costPerUnit || '0'`) but
`costPerUnit = NaN` (from the unguarded `parseFloat('')`), so the line's
`totalCost` differs from quantity × costPerUnit, which is `NaN`. -/
theorem purchase_line_empty_cost_mismatch :
    ((EditPurchase.handleAddItem (EditPurchase.updateTotalCost
        ⟨⟨some ⟨some "Acme", none, none, none⟩, some [], some 0, some 0, some 0, some 0,
            some 0, some PaymentMethod.cash, some PurchaseStatus.received, some ""⟩,
          some ⟨some "i1", "Widget", "SKU1", "general", 5, 4, some 3,
            some TrackingType.quantity, none, none⟩,
          "2", "0", WeightUnit.lb, "", some 0, none⟩)).formData.items.getD []).map
        (fun it => (it.quantity, it.costPerUnit, it.totalCost)) =
      [(some (some 2), none, some 0)] ∧
    jsMul (some 2) none ≠ (some 0 : JSNum) := by
  refine ⟨?_, by decide⟩
  simp +decide [EditPurchase.handleAddItem, EditPurchase.updateTotalCost, jsParseIntNum,
    jsParseInt, jsParseFloat, parseSign, parseDigitsAux, jsMul]

/-- C8 (amended): with an item selected and a non-empty costPerUnit text,
syncing the line total and adding appends exactly one line: for a
weight-tracked item it populates weight and weightUnit (no quantity) and
its totalCost is parsed weight × parsed costPerUnit; otherwise it
populates quantity only and its totalCost is parsed quantity × parsed
costPerUnit; the weightUnit is stored but never enters the product (no
unit conversion).  For an empty costPerUnit text the stored costPerUnit
is `NaN` while totalCost is computed from 0, breaking the product
invariant (see the counterexample). -/
theorem purchase_line_item_shape (s : EditPurchase.State) (sel : Item)
    (hsel : s.selectedItem = some sel) (hcpu : s.costPerUnit ≠ "") :
    (EditPurchase.handleAddItem (EditPurchase.updateTotalCost s)).formData.items =
      some ((s.formData.items.getD []) ++
        [if sel.trackingType = some TrackingType.weight then
          { item := sel._id.getD "", quantity := none,
            weight := some (jsParseFloat s.weight), weightUnit := some s.weightUnit,
            costPerUnit := jsParseFloat s.costPerUnit,
            totalCost := jsMul (jsParseFloat s.weight) (jsParseFloat s.costPerUnit) }
         else
          { item := sel._id.getD "", quantity := some (jsParseIntNum s.quantity),
            weight := none, weightUnit := none,
            costPerUnit := jsParseFloat s.costPerUnit,
            totalCost := jsMul (jsParseIntNum s.quantity) (jsParseFloat s.costPerUnit) }]) := by
  by_cases ht : sel.trackingType = some TrackingType.weight <;>
    simp [EditPurchase.updateTotalCost, EditPurchase.handleAddItem, hsel, hcpu, ht]

/-- Witness for the amended C8: a weight-tracked item with weight "2" and
costPerUnit "4" appends the weight-shaped line with the product as its
total cost. -/
theorem purchase_line_item_shape_witness :
    (EditPurchase.handleAddItem (EditPurchase.updateTotalCost
        ⟨⟨some ⟨some "Acme", none, none, none⟩, some [], some 0, some 0, some 0, some 0,
            some 0, some PaymentMethod.cash, some PurchaseStatus.received, some ""⟩,
          some ⟨some "i2", "Yarn", "SKU2", "materials", 0, 12, some 8,
            some TrackingType.weight, some 3, some WeightUnit.lb⟩,
          "1", "2", WeightUnit.lb, "4", some 0, none⟩)).formData.items =
      some (((⟨⟨some ⟨some "Acme", none, none, none⟩, some [], some 0, some 0, some 0,
            some 0, some 0, some PaymentMethod.cash, some PurchaseStatus.received,
            some ""⟩,
          some ⟨some "i2", "Yarn", "SKU2", "materials", 0, 12, some 8,
            some TrackingType.weight, some 3, some WeightUnit.lb⟩,
          "1", "2", WeightUnit.lb, "4", some 0, none⟩ :
            EditPurchase.State).formData.items.getD []) ++
        [if (⟨some "i2", "Yarn", "SKU2", "materials", 0, 12, some 8,
            some TrackingType.weight, some 3, some WeightUnit.lb⟩ : Item).trackingType =
              some TrackingType.weight then
          { item := (⟨some "i2", "Yarn", "SKU2", "materials", 0, 12, some 8,
              some TrackingType.weight, some 3, some WeightUnit.lb⟩ : Item)._id.getD "",
            quantity := none, weight := some (jsParseFloat "2"),
            weightUnit := some WeightUnit.lb, costPerUnit := jsParseFloat "4",
            totalCost := jsMul (jsParseFloat "2") (jsParseFloat "4") }
         else
          { item := (⟨some "i2", "Yarn", "SKU2", "materials", 0, 12, some 8,
              some TrackingType.weight, some 3, some WeightUnit.lb⟩ : Item)._id.getD "",
            quantity := some (jsParseIntNum "1"), weight := none, weightUnit := none,
            costPerUnit := jsParseFloat "4",
            totalCost := jsMul (jsParseIntNum "1") (jsParseFloat "4") }]) :=
  purchase_line_item_shape _
    ⟨some "i2", "Yarn", "SKU2", "materials", 0, 12, some 8,
      some TrackingType.weight, some 3, some WeightUnit.lb⟩ rfl (by decide)

end ClaimC8
